import Mathlib

/-!
Verification of the msa_converter package (MultiCat fixed-width converter).

Shallow embedding conventions:
* Python `str` values are modelled as `Str := List Char` (the input reader
  normalizes every object column with `astype(str).str.strip()`, so all record
  and row fields are plain strings by the time the core code runs).
* Python floats that carry business quantities (`Qty`, `OnHandInventory`,
  field values of records) are modelled as `Rat`; `f-string` rendering of a
  float with `:.2f` is modelled by rounding the rational to hundredths with
  ties-to-even, which matches CPython on every value used by the claims.
* Fallible Python code (raising `ValueError` / `IndexError`) is modelled with
  `Option` or `Except`.
-/

/-- Python strings, byte-for-byte (the data is ASCII). -/
abbrev Str := List Char

/-- Literal "L" passed for `justify`. -/
def jL : Str := "L".toList

/-- Literal "R" passed for `justify`. -/
def jR : Str := "R".toList

/-- Python `str.ljust(w, fill)`: pad on the right up to width `w`. -/
def ljust (s : Str) (w : Nat) (f : Char) : Str :=
  s ++ List.replicate (w - s.length) f

/-- Python `str.rjust(w, fill)`: pad on the left up to width `w`. -/
def rjust (s : Str) (w : Nat) (f : Char) : Str :=
  List.replicate (w - s.length) f ++ s

/-- `formatter.fmt(value, width, justify, fill)`: truncate to `width` when the
value is longer, then left- or right-justify with the fill character.
(The `str(value) if value is not None else ""` coercion is the identity here
because fields are modelled as strings.) -/
def fmt (value : Str) (width : Nat) (justify : Str) (fill : Char) : Str :=
  let v := if width < value.length then value.take width else value
  if justify = jL then ljust v width fill else rjust v width fill

/-- Decimal digit character, as produced by Python when printing a number. -/
def digitCh (n : Nat) : Char :=
  match n with
  | 0 => '0' | 1 => '1' | 2 => '2' | 3 => '3' | 4 => '4'
  | 5 => '5' | 6 => '6' | 7 => '7' | 8 => '8' | _ => '9'

/-- Decimal rendering of a natural number (fuelled so that it is structural
and hence kernel-reducible); `natRepr` below supplies enough fuel. -/
def natReprAux : Nat → Nat → Str
  | 0, _ => []
  | fuel + 1, n =>
    if n < 10 then [digitCh n]
    else natReprAux fuel (n / 10) ++ [digitCh (n % 10)]

/-- Python `str(n)` for a natural number. -/
def natRepr (n : Nat) : Str := natReprAux (n + 1) n

/-- Python `str(i)` for an integer. -/
def intRepr (i : Int) : Str :=
  if i < 0 then '-' :: natRepr i.natAbs else natRepr i.natAbs

/-- Python `str(n).zfill(8)` as used for shipping numbers. -/
def zfill8 (n : Nat) : Str := rjust (natRepr n) 8 '0'

/-- Round a nonnegative rational to hundredths, ties to even: the model of
CPython's `f"{x:.2f}"` digit extraction. -/
def rnd2 (x : Rat) : Int :=
  let y := x * 100
  let n := y.floor
  let r := y - (n : Rat)
  if r > 1 / 2 then n + 1
  else if r < 1 / 2 then n
  else if n % 2 = 0 then n else n + 1

/-- Two fraction digits of a `:.2f` rendering (`m < 100`). -/
def twoFrac (m : Nat) : Str := [digitCh (m / 10), digitCh (m % 10)]

/-- `formatter.fmt_real(value, width, fill)`: fixed-point rendering with two
fraction digits, right-justified; a negative sign consumes one position from
the width.  Note the source does not truncate here. -/
def fmt_real (value : Rat) (width : Nat) (fill : Char) : Str :=
  let n := (rnd2 |value|).toNat
  let formatted := natRepr (n / 100) ++ '.' :: twoFrac (n % 100)
  if value < 0 then '-' :: rjust formatted (width - 1) fill
  else rjust formatted width fill

/-- models.HIDRecord (dataclass defaults reproduced). -/
structure HIDRecord where
  distributor_id : Str := []
  project_id : Str := "TOB".toList
  test_flag : Str := "T".toList
  time_interval : Str := "W".toList
  end_date : Str := []
  distributor_name : Str := []
  distributor_address : Str := []
  distributor_city : Str := []
  distributor_state : Str := []
  distributor_zip : Str := []
  distributor_country : Str := []
  contact_last_name : Str := []
  contact_first_name : Str := []
  contact_phone : Str := []
  contact_fax : Str := []
  contact_email : Str := []
  pur_measure_count : Str := "0001".toList
  creation_date : Str := []
  inv_resubmission : Str := []
deriving DecidableEq

/-- models.BIDRecord. -/
structure BIDRecord where
  upc : Str := []
  sku : Str := []
  product_description : Str := []
  promotion_description : Str := []
  items_per_selling_unit : Str := []
  promotion_indicator : Str := "N".toList
  nacs_category_code : Str := []
  msa_category_code : Str := []
  unit_size : Str := []
  unit_size_description : Str := []
  shipper_flag : Str := []
  mfr_promo_code : Str := []
  mfr_product_id : Str := []
  state_tax_jurisdiction : Str := []
  inventory : Rat := 0
deriving DecidableEq

/-- models.SIDRecord. -/
structure SIDRecord where
  customer_number : Str := []
  shipping_number : Str := []
  shipping_number_ext : Str := []
  customer_name : Str := []
  store_number : Str := []
  address : Str := []
  city : Str := []
  state : Str := []
  zip_code : Str := []
  country : Str := []
  state_tax_jurisdiction : Str := []
  phone : Str := []
  class_of_trade : Str := []
  tdlinx_number : Str := []
  cash_carry_indicator : Str := "N".toList
  promo_acceptance : Str := []
deriving DecidableEq

/-- models.PURRecord. -/
structure PURRecord where
  customer_number : Str := []
  shipping_number : Str := []
  shipping_number_ext : Str := []
  sku : Str := []
  invoice_number : Str := []
  transaction_date : Str := []
  quantity : Rat := 0
  dollars : Option Rat := none
deriving DecidableEq

/-- models.TOTRecord. -/
structure TOTRecord where
  distributor_id : Str := []
  end_date : Str := []
  bid_count : Int := 0
  sid_count : Int := 0
  pur_count : Int := 0
  total_quantity : Rat := 0
  total_dollars : Option Rat := none
  total_inventory : Rat := 0
deriving DecidableEq

/-- models.HIDRecord.to_line, field for field. -/
def HIDRecord.to_line (h : HIDRecord) : Str :=
  fmt ("HID".toList) 3 jL ' '
  ++ fmt h.distributor_id 8 jL ' '
  ++ fmt h.project_id 4 jL ' '
  ++ fmt h.test_flag 1 jL ' '
  ++ fmt h.time_interval 1 jL ' '
  ++ fmt h.end_date 8 jL ' '
  ++ fmt h.distributor_name 32 jL ' '
  ++ fmt h.distributor_address 90 jL ' '
  ++ fmt h.distributor_city 25 jL ' '
  ++ fmt h.distributor_state 2 jL ' '
  ++ fmt h.distributor_zip 9 jL ' '
  ++ fmt h.distributor_country 3 jL ' '
  ++ fmt h.contact_last_name 20 jL ' '
  ++ fmt h.contact_first_name 20 jL ' '
  ++ fmt [] 5 jL ' '
  ++ fmt h.contact_phone 10 jL ' '
  ++ fmt [] 5 jL ' '
  ++ fmt h.contact_fax 10 jL ' '
  ++ fmt h.contact_email 60 jL ' '
  ++ fmt ("0001".toList) 4 jR '0'
  ++ fmt ("0000".toList) 4 jR '0'
  ++ fmt h.pur_measure_count 4 jR '0'
  ++ fmt h.creation_date 8 jL ' '
  ++ fmt h.inv_resubmission 1 jL ' '

/-- models.BIDRecord.to_line, field for field. -/
def BIDRecord.to_line (b : BIDRecord) : Str :=
  fmt ("BID".toList) 3 jL ' '
  ++ fmt b.upc 14 jR ' '
  ++ fmt b.sku 14 jR '0'
  ++ fmt b.product_description 50 jL ' '
  ++ fmt b.promotion_description 50 jL ' '
  ++ fmt b.items_per_selling_unit 6 jR '0'
  ++ fmt b.promotion_indicator 1 jL ' '
  ++ fmt b.nacs_category_code 6 jL ' '
  ++ fmt b.msa_category_code 6 jL ' '
  ++ fmt [] 10 jL ' '
  ++ fmt b.unit_size 6 jR '0'
  ++ fmt b.unit_size_description 10 jL ' '
  ++ fmt b.shipper_flag 1 jL ' '
  ++ fmt b.mfr_promo_code 10 jL ' '
  ++ fmt b.mfr_product_id 14 jL ' '
  ++ fmt [] 2 jL ' '
  ++ fmt [] 4 jL ' '
  ++ fmt b.state_tax_jurisdiction 2 jL ' '
  ++ fmt [] 16 jR ' '
  ++ fmt [] 16 jR ' '
  ++ fmt [] 2 jR '0'
  ++ fmt [] 4 jL ' '
  ++ fmt ("003".toList) 3 jL ' '
  ++ fmt_real b.inventory 11 '0'

/-- models.SIDRecord.to_line, field for field. -/
def SIDRecord.to_line (s : SIDRecord) : Str :=
  fmt ("SID".toList) 3 jL ' '
  ++ fmt s.customer_number 8 jL ' '
  ++ fmt s.shipping_number 8 jL ' '
  ++ fmt s.shipping_number_ext 8 jL ' '
  ++ fmt s.customer_name 32 jL ' '
  ++ fmt s.store_number 8 jL ' '
  ++ fmt s.address 90 jL ' '
  ++ fmt s.city 25 jL ' '
  ++ fmt s.state 2 jL ' '
  ++ fmt s.zip_code 9 jL ' '
  ++ fmt s.country 3 jL ' '
  ++ fmt s.state_tax_jurisdiction 2 jL ' '
  ++ fmt [] 3 jL ' '
  ++ fmt s.phone 10 jL ' '
  ++ fmt s.class_of_trade 20 jL ' '
  ++ fmt s.tdlinx_number 7 jL ' '
  ++ fmt s.cash_carry_indicator 1 jL ' '
  ++ fmt [] 16 jL ' '
  ++ fmt [] 2 jL ' '
  ++ fmt [] 1 jL ' '
  ++ fmt [] 24 jL ' '
  ++ fmt [] 24 jL ' '
  ++ fmt [] 32 jL ' '
  ++ fmt [] 90 jL ' '
  ++ fmt [] 25 jL ' '
  ++ fmt [] 2 jL ' '
  ++ fmt [] 9 jL ' '
  ++ fmt [] 3 jL ' '
  ++ fmt [] 5 jL ' '
  ++ fmt [] 10 jR '0'
  ++ fmt [] 5 jR '0'
  ++ fmt [] 5 jR '0'
  ++ fmt [] 5 jR '0'
  ++ fmt s.promo_acceptance 1 jL ' '
  ++ fmt [] 10 jL ' '
  ++ fmt [] 29 jL ' '
  ++ fmt [] 3 jL ' '
  ++ fmt [] 11 jR '0'

/-- models.PURRecord.to_line, field for field (the second measure is present
only when `dollars` is supplied, blank-filled otherwise). -/
def PURRecord.to_line (p : PURRecord) : Str :=
  fmt ("PUR".toList) 3 jL ' '
  ++ fmt p.customer_number 8 jL ' '
  ++ fmt p.shipping_number 8 jL ' '
  ++ fmt p.shipping_number_ext 8 jL ' '
  ++ fmt p.sku 14 jR '0'
  ++ fmt [] 3 jL ' '
  ++ fmt p.invoice_number 30 jL ' '
  ++ fmt p.transaction_date 8 jL ' '
  ++ fmt [] 20 jL ' '
  ++ fmt ("001".toList) 3 jL ' '
  ++ fmt_real p.quantity 11 '0'
  ++ (match p.dollars with
      | some _ => fmt ("002".toList) 3 jL ' '
      | none => fmt [] 3 jL ' ')
  ++ (match p.dollars with
      | some d => fmt_real d 11 '0'
      | none => fmt [] 11 jL ' ')

/-- models.TOTRecord.to_line, field for field. -/
def TOTRecord.to_line (t : TOTRecord) : Str :=
  fmt ("TOT".toList) 3 jL ' '
  ++ fmt t.distributor_id 8 jL ' '
  ++ fmt t.end_date 8 jL ' '
  ++ fmt (intRepr t.bid_count) 9 jR '0'
  ++ fmt (intRepr t.sid_count) 9 jR '0'
  ++ fmt (intRepr t.pur_count) 9 jR '0'
  ++ fmt [] 40 jL ' '
  ++ fmt ("001".toList) 3 jL ' '
  ++ fmt_real t.total_quantity 15 '0'
  ++ (match t.total_dollars with
      | some _ => fmt ("002".toList) 3 jL ' '
      | none => fmt [] 3 jL ' ')
  ++ (match t.total_dollars with
      | some d => fmt_real d 15 '0'
      | none => fmt [] 15 jL ' ')
  ++ fmt ("003".toList) 3 jL ' '
  ++ fmt_real t.total_inventory 15 '0'

/-- A real-number field value whose `:.2f` rendering fits a `w`-wide slot
(the negative sign consumes one position). -/
def fitsReal (v : Rat) (w : Nat) : Prop :=
  (rnd2 |v|).toNat < 100 * 10 ^ (w - (if v < 0 then 4 else 3))

/-- Python whitespace as recognized by `str.strip()`. -/
def isPySpace (c : Char) : Bool :=
  c = ' ' || c = '\t' || c = '\n' || c = '\x0d' || c = '\x0b' || c = '\x0c'

/-- Python `str.strip()`. -/
def strip (s : Str) : Str :=
  ((s.dropWhile isPySpace).reverse.dropWhile isPySpace).reverse

/-- Numeric value of a digit character. -/
def digVal (c : Char) : Nat := c.toNat - 48

/-- CPython `_strptime` alternatives for `%m` (regex `1[0-2]|0[1-9]|[1-9]`),
in the order the regex engine tries them; each entry is (month, rest). -/
def mCands : Str → List (Nat × Str)
  | [] => []
  | [c] => if '1' ≤ c ∧ c ≤ '9' then [(digVal c, [])] else []
  | '1' :: c :: rest =>
    (if '0' ≤ c ∧ c ≤ '2' then [(10 + digVal c, rest)] else []) ++ [(1, c :: rest)]
  | '0' :: c :: rest =>
    if '1' ≤ c ∧ c ≤ '9' then [(digVal c, rest)] else []
  | c :: rest =>
    if '2' ≤ c ∧ c ≤ '9' then [(digVal c, rest)] else []

/-- The one-digit day alternative `[1-9]` of `%d`. -/
def dSingle (c : Char) (rest : Str) : List (Nat × Str) :=
  if '1' ≤ c ∧ c ≤ '9' then [(digVal c, rest)] else []

/-- CPython `_strptime` alternatives for `%d`
(regex `3[01]|[12]\d|0[1-9]|[1-9]`), in regex order. -/
def dCands : Str → List (Nat × Str)
  | [] => []
  | [c] => dSingle c []
  | c :: c2 :: rest =>
    (if c = '3' ∧ ('0' ≤ c2 ∧ c2 ≤ '1') then [(30 + digVal c2, rest)] else [])
    ++ (if (c = '1' ∨ c = '2') ∧ c2.isDigit then [(10 * digVal c + digVal c2, rest)] else [])
    ++ (if c = '0' ∧ ('1' ≤ c2 ∧ c2 ≤ '9') then [(digVal c2, rest)] else [])
    ++ dSingle c (c2 :: rest)

/-- CPython `_strptime` pattern for `%Y`: exactly four digits. -/
def yCands : Str → List (Nat × Str)
  | a :: b :: c :: d :: rest =>
    if a.isDigit ∧ b.isDigit ∧ c.isDigit ∧ d.isDigit then
      [(1000 * digVal a + 100 * digVal b + 10 * digVal c + digVal d, rest)]
    else []
  | _ => []

/-- Proleptic Gregorian leap year (`calendar.isleap`, used by `datetime`). -/
def isLeap (y : Nat) : Bool := y % 4 = 0 && (y % 100 ≠ 0 || y % 400 = 0)

/-- Days in a month of a year (`datetime`'s `_days_in_month`). -/
def daysInMonth (y m : Nat) : Nat :=
  match m with
  | 1 => 31 | 2 => if isLeap y then 29 else 28 | 3 => 31 | 4 => 30
  | 5 => 31 | 6 => 30 | 7 => 31 | 8 => 31 | 9 => 30 | 10 => 31
  | 11 => 30 | _ => 31

/-- The semantic validation performed by the `datetime.datetime` constructor
after the regex match: `MINYEAR <= year` (``<= MAXYEAR`` holds since `%Y` is
four digits) and the day lies within the month. -/
def validDate : Nat × Nat × Nat → Bool
  | (y, m, d) => 1 ≤ y && d ≤ daysInMonth y m

/-- Validate the first structural regex match, as `strptime` does: a regex
match a with out-of-range date raises and no other match is tried. -/
def firstValid (l : List (Nat × Nat × Nat)) : Option (Nat × Nat × Nat) :=
  match l with
  | [] => none
  | ymd :: _ => if validDate ymd then some ymd else none

/-- All full regex matches of `%m/%d/%Y`, in backtracking order. -/
def slashMatches (s : Str) : List (Nat × Nat × Nat) :=
  (mCands s).flatMap fun mc =>
    match mc.2 with
    | '/' :: r2 =>
      (dCands r2).flatMap fun dc =>
        match dc.2 with
        | '/' :: r4 =>
          (yCands r4).flatMap fun yc =>
            if yc.2 = [] then [(yc.1, mc.1, dc.1)] else []
        | _ => []
    | _ => []

/-- `datetime.strptime(s, "%m/%d/%Y")`, returning (year, month, day). -/
def parseSlash (s : Str) : Option (Nat × Nat × Nat) := firstValid (slashMatches s)

/-- All full regex matches of `%Y-%m-%d`, in backtracking order. -/
def isoMatches (s : Str) : List (Nat × Nat × Nat) :=
  (yCands s).flatMap fun yc =>
    match yc.2 with
    | '-' :: r2 =>
      (mCands r2).flatMap fun mc =>
        match mc.2 with
        | '-' :: r4 =>
          (dCands r4).flatMap fun dc =>
            if dc.2 = [] then [(yc.1, mc.1, dc.1)] else []
        | _ => []
    | _ => []

/-- `datetime.strptime(s, "%Y-%m-%d")`. -/
def parseISO (s : Str) : Option (Nat × Nat × Nat) := firstValid (isoMatches s)

/-- All full regex matches of `%m-%d-%Y`, in backtracking order. -/
def dashMatches (s : Str) : List (Nat × Nat × Nat) :=
  (mCands s).flatMap fun mc =>
    match mc.2 with
    | '-' :: r2 =>
      (dCands r2).flatMap fun dc =>
        match dc.2 with
        | '-' :: r4 =>
          (yCands r4).flatMap fun yc =>
            if yc.2 = [] then [(yc.1, mc.1, dc.1)] else []
        | _ => []
    | _ => []

/-- `datetime.strptime(s, "%m-%d-%Y")`. -/
def parseDashMDY (s : Str) : Option (Nat × Nat × Nat) := firstValid (dashMatches s)

/-- All full regex matches of `%Y%m%d`, in backtracking order. -/
def compactMatches (s : Str) : List (Nat × Nat × Nat) :=
  (yCands s).flatMap fun yc =>
    (mCands yc.2).flatMap fun mc =>
      (dCands mc.2).flatMap fun dc =>
        if dc.2 = [] then [(yc.1, mc.1, dc.1)] else []

/-- `datetime.strptime(s, "%Y%m%d")`. -/
def parseCompact (s : Str) : Option (Nat × Nat × Nat) := firstValid (compactMatches s)

/-- The for-loop of `formatter.fmt_date`: try the four formats in order,
first success wins. -/
def parseDateChain (s : Str) : Option (Nat × Nat × Nat) :=
  match parseSlash s with
  | some d => some d
  | none =>
    match parseISO s with
    | some d => some d
    | none =>
      match parseDashMDY s with
      | some d => some d
      | none => parseCompact s

/-- `strftime("%Y%m%d")` of a parsed date: zero-padded 4-2-2 rendering. -/
def renderYMD : Nat × Nat × Nat → Str
  | (y, m, d) => rjust (natRepr y) 4 '0' ++ rjust (natRepr m) 2 '0' ++ rjust (natRepr d) 2 '0'

/-- `formatter.fmt_date`: strip, try the four formats in order, render the
first match as YYYYMMDD, otherwise raise `ValueError` naming the input. -/
def fmt_date (s : Str) : Except Str Str :=
  let t := strip s
  match parseDateChain t with
  | some ymd => Except.ok (renderYMD ymd)
  | none => Except.error ("Cannot parse date: ".toList ++ t)

/-- Days before January 1 of year `y` (CPython `_days_before_year`). -/
def daysBeforeYear (y : Nat) : Nat :=
  (y - 1) * 365 + (y - 1) / 4 - (y - 1) / 100 + (y - 1) / 400

/-- Cumulative days before month `m` in a non-leap year
(CPython `_DAYS_BEFORE_MONTH`). -/
def daysBeforeMonthTable (m : Nat) : Nat :=
  match m with
  | 1 => 0 | 2 => 31 | 3 => 59 | 4 => 90 | 5 => 120 | 6 => 151
  | 7 => 181 | 8 => 212 | 9 => 243 | 10 => 273 | 11 => 304 | _ => 334

/-- CPython `_days_before_month`. -/
def daysBeforeMonth (y m : Nat) : Nat :=
  daysBeforeMonthTable m + (if 2 < m ∧ isLeap y then 1 else 0)

/-- CPython `date.toordinal()`: day 1 is 0001-01-01. -/
def toordinal (y m d : Nat) : Nat := daysBeforeYear y + daysBeforeMonth y m + d

/-- CPython `date.fromordinal` (`_ord2ymd`); the month is recovered by
scanning the cumulative-days table. -/
def fromordinal (o : Nat) : Nat × Nat × Nat :=
  let n := o - 1
  let n400 := n / 146097
  let n := n % 146097
  let n100 := n / 36524
  let n := n % 36524
  let n4 := n / 1461
  let n := n % 1461
  let n1 := n / 365
  let rem := n % 365
  let year := n400 * 400 + n100 * 100 + n4 * 4 + n1 + 1
  if n1 = 4 ∨ n100 = 4 then (year - 1, 12, 31)
  else
    let m := ((List.range 12).map (· + 1)).foldl
      (fun acc mo => if daysBeforeMonth year mo ≤ rem then mo else acc) 1
    (year, m, rem - daysBeforeMonth year m + 1)

/-- CPython `date.weekday()`: `(toordinal + 6) % 7`, Monday = 0. -/
def pyWeekday (g : Int) : Int := (g + 6) % 7

/-- Parse a date string to its ordinal, as `pd.to_datetime` does for the
formats this repository feeds it (the reader keeps dates as strings and
upstream validation guarantees they parse in one of the four formats). -/
def parseOrd (s : Str) : Option Int :=
  (parseDateChain (strip s)).map fun ymd => (toordinal ymd.1 ymd.2.1 ymd.2.2 : Int)

/-- `Option`-valued map over a list: models a Python loop in which any
iteration may raise. -/
def mapO (f : α → Option β) : List α → Option (List β)
  | [] => some []
  | a :: l =>
    match f a with
    | none => none
    | some b =>
      match mapO f l with
      | none => none
      | some bs => some (b :: bs)

/-- Maximum of a list of ordinals (`Series.max`; `none` on an empty set,
where pandas yields `NaT` and the subsequent `weekday()` call raises). -/
def maxListI : List Int → Option Int
  | [] => none
  | x :: xs => some (xs.foldl max x)

/-- `strftime("%Y%m%d")` of an ordinal. -/
def renderOrd (g : Int) : Str := renderYMD (fromordinal g.toNat)

/-- builder._week_end_date: max of the parsed dates, rolled forward to the
next Saturday by `(5 - weekday) % 7` days (the `days_until_saturday == 0 and
weekday != 5` branch of the source is reproduced verbatim). -/
def _week_end_date (dates : List Str) : Option Str :=
  match mapO parseOrd dates with
  | none => none
  | some os =>
    match maxListI os with
    | none => none
    | some g =>
      let w := pyWeekday g
      let dus := (5 - w) % 7
      let dus := if dus = 0 ∧ w ≠ 5 then 7 else dus
      some (renderOrd (g + dus))

/-- One normalized input row (post-reader: object columns are stripped
strings, numeric columns keep their values; `unit` and `UPCCode` are the
integer values the builder passes through `int(...)`). -/
structure Row where
  CustomerNumber : Str
  CustomerName : Str
  Address : Str
  City : Str
  State : Str
  Zip : Str
  Date : Str
  Invoice : Str
  ItemCode : Str
  ItemDescription : Str
  Categories : Str
  Promo : Str
  CashCarry : Str
  ClassOfTrade : Str
  SellingUnit : Str
  UPCCode : Option Nat
  Qty : Rat
  OnHandInventory : Rat
  unit : Nat
deriving DecidableEq

/-- The location tuple `(CustomerNumber, CustomerName, Address, City, State,
Zip)` used both by `drop_duplicates` and as the dict key (the `str(...)`
coercions on State/Zip are the identity on string-typed columns). -/
structure LocKey where
  cust : Str
  name : Str
  addr : Str
  city : Str
  state : Str
  zip : Str
deriving DecidableEq

/-- Project a row to its location tuple. -/
def locTuple (r : Row) : LocKey :=
  ⟨r.CustomerNumber, r.CustomerName, r.Address, r.City, r.State, r.Zip⟩

/-- Python string comparison: lexicographic by code point. -/
def strLe : Str → Str → Bool
  | [], _ => true
  | _ :: _, [] => false
  | a :: as, b :: bs =>
    if a.toNat < b.toNat then true
    else if b.toNat < a.toNat then false
    else strLe as bs

/-- Sort key of `sort_values(["CustomerNumber", "Address"])`. -/
def keyLe (a b : LocKey) : Bool :=
  if a.cust = b.cust then strLe a.addr b.addr else strLe a.cust b.cust

/-- Insert into a sorted list (stable: ties keep the existing order). -/
def insertLe (le : α → α → Bool) (a : α) : List α → List α
  | [] => [a]
  | b :: l => if le a b then a :: b :: l else b :: insertLe le a l

/-- Stable insertion sort, the model of pandas' stable lexsort /
sorted-key group-by ordering. -/
def sortLe (le : α → α → Bool) : List α → List α
  | [] => []
  | a :: l => insertLe le a (sortLe le l)

/-- `drop_duplicates()` keeping first occurrences (structural recursion with
a seen-accumulator, so it evaluates in the kernel). -/
def dedupFirstAux [DecidableEq α] (seen : List α) : List α → List α
  | [] => []
  | a :: l => if a ∈ seen then dedupFirstAux seen l else a :: dedupFirstAux (a :: seen) l

/-- `drop_duplicates()` keeping first occurrences. -/
def dedupFirst [DecidableEq α] (l : List α) : List α := dedupFirstAux [] l

/-- The numbering loop of `_build_sid_lookup`: walk the (sorted, distinct)
locations, incrementing a per-customer counter (`customer_seq` dict,
modelled as a function with default 0); each location is paired with its
zero-filled sequence number, in insertion order as a Python dict preserves
it (keys are distinct after drop_duplicates). -/
def sidAssign : List LocKey → (Str → Nat) → List (LocKey × Str)
  | [], _ => []
  | l :: ls, seq =>
    let n := seq l.cust + 1
    (l, zfill8 n) :: sidAssign ls (fun c => if c = l.cust then n else seq c)

/-- builder._build_sid_lookup. -/
def _build_sid_lookup (df : List Row) : List (LocKey × Str) :=
  sidAssign (sortLe keyLe (dedupFirst (df.map locTuple))) (fun _ => 0)

/-- Association-list lookup, the model of `dict`/`dict.get`. -/
def alistGet [DecidableEq α] (k : α) : List (α × β) → Option β
  | [] => none
  | p :: l => if p.1 = k then some p.2 else alistGet k l

/-- mappings.YES_NO_MAP. -/
def YES_NO_MAP : List (Str × Str) :=
  [("Yes".toList, "Y".toList), ("No".toList, "N".toList),
   ("yes".toList, "Y".toList), ("no".toList, "N".toList),
   ("Y".toList, "Y".toList), ("N".toList, "N".toList),
   ([], "N".toList)]

/-- mappings.MSA_CATEGORY_CODES. -/
def MSA_CATEGORY_CODES : List (Str × Str) :=
  [("Cigarettes".toList, "003231".toList),
   ("Cigars".toList, "003251".toList),
   ("Cigarillos".toList, "003252".toList),
   ("Pipe Tobacco".toList, "003241".toList),
   ("Moist Snuff".toList, "003211".toList),
   ("Loose Leaf Chewing Tobacco".toList, "003212".toList),
   ("Dry Snuff".toList, "003213".toList),
   ("Twist/Rope".toList, "003214".toList),
   ("SNUS".toList, "003217".toList),
   ("Compressed Tobacco".toList, "003218".toList),
   ("RYO/MYO Tobacco".toList, "003221".toList),
   ("Premium Cigars".toList, "003227".toList),
   ("Papers/Tubes/Wraps".toList, "003261".toList),
   ("E-Cigarettes".toList, "003292".toList),
   ("Tobacco Derived Products".toList, "003293".toList)]

/-- `df.groupby(key)`: distinct keys in ascending (sorted) order, each with
the rows carrying that key in source order. -/
def groupsBy (key : Row → Str) (df : List Row) : List (Str × List Row) :=
  (sortLe strLe (dedupFirst (df.map key))).map fun k =>
    (k, df.filter fun r => decide (key r = k))

/-- `Series.max()` over rationals (`none` on an empty series). -/
def ratMaxList : List Rat → Option Rat
  | [] => none
  | x :: xs => some (xs.foldl max x)

/-- `Series.max()` over Python strings: the lexicographic maximum. -/
def strMaxList : List Str → Option Str
  | [] => none
  | x :: xs => some (xs.foldl (fun a b => if strLe a b then b else a) x)

/-- The BID-loop body of builder.build_records for one `(sku, group)`. -/
def mkBID (g : Str × List Row) : Option BIDRecord :=
  match g.2.head? with
  | none => none
  | some row =>
    match ratMaxList (g.2.map (·.OnHandInventory)) with
    | none => none
    | some inventory =>
      some
        { upc := match row.UPCCode with | some n => natRepr n | none => []
          sku := g.1
          product_description := row.ItemDescription
          items_per_selling_unit := natRepr row.unit
          unit_size_description := row.SellingUnit
          promotion_indicator :=
            if g.2.any (fun r => decide (alistGet r.Promo YES_NO_MAP = some ("Y".toList)))
            then "Y".toList else "N".toList
          mfr_product_id := match row.UPCCode with | some n => natRepr n | none => []
          msa_category_code := (alistGet row.Categories MSA_CATEGORY_CODES).getD []
          inventory := inventory }

/-- The row mask used for both SID and PUR construction: it matches on
customer number, address and city only (not the full location tuple). -/
def locMask (key : LocKey) (r : Row) : Bool :=
  decide (r.CustomerNumber = key.cust ∧ r.Address = key.addr ∧ r.City = key.city)

/-- The SID-loop body of builder.build_records for one lookup entry
(`df[mask].iloc[0]` is the first matching row; an empty mask would raise,
modelled by `none`). -/
def mkSID (df : List Row) (kv : LocKey × Str) : Option SIDRecord :=
  match (df.filter (locMask kv.1)).head? with
  | none => none
  | some row =>
    some
      { customer_number := kv.1.cust
        shipping_number := kv.2
        customer_name := kv.1.name
        address := kv.1.addr
        city := kv.1.city
        state := kv.1.state
        zip_code := kv.1.zip
        country := "USA".toList
        class_of_trade := row.ClassOfTrade
        cash_carry_indicator := (alistGet row.CashCarry YES_NO_MAP).getD ("N".toList) }

/-- Left-fold sum of the quantities of a row group (`agg Qty "sum"`). -/
def rowSumQ (l : List Row) : Rat := l.foldl (fun a r => a + r.Qty) 0

/-- The PUR-loop body for one `(sku, group)` of one location: summed
quantity, lexicographically maximal raw date string (`agg Date "max"` on the
string column), first invoice; the date max is then pushed through
`fmt_date`, whose `ValueError` aborts the build. -/
def mkPUR (cust ship : Str) (g : Str × List Row) : Option PURRecord :=
  match g.2.head? with
  | none => none
  | some row =>
    match strMaxList (g.2.map (·.Date)) with
    | none => none
    | some dmax =>
      match (fmt_date dmax).toOption with
      | none => none
      | some td =>
        some
          { customer_number := cust
            shipping_number := ship
            sku := g.1
            invoice_number := row.Invoice
            transaction_date := td
            quantity := rowSumQ g.2 }

/-- All PUR records of one lookup entry. -/
def mkPURs (df : List Row) (kv : LocKey × Str) : Option (List PURRecord) :=
  mapO (mkPUR kv.1.cust kv.2) (groupsBy (·.ItemCode) (df.filter (locMask kv.1)))

/-- config.DistributorConfig (pydantic defaults reproduced). -/
structure DistributorConfig where
  distributor_id : Str := "10094001".toList
  name : Str := []
  address : Str := []
  city : Str := []
  state : Str := []
  zip_code : Str := []
  country : Str := "USA".toList
  contact_last_name : Str := []
  contact_first_name : Str := []
  contact_phone : Str := []
  contact_fax : Str := []
  contact_email : Str := []
  test_mode : Bool := true
deriving DecidableEq

/-- Sum of built purchase quantities (`sum(p.quantity for p in pur_records)`). -/
def sumPURQty (l : List PURRecord) : Rat := l.foldl (fun a p => a + p.quantity) 0

/-- Sum of built brand inventories (`sum(b.inventory for b in bid_records)`). -/
def sumBIDInv (l : List BIDRecord) : Rat := l.foldl (fun a b => a + b.inventory) 0

/-- The HID record built from configuration, computed end date and the
creation timestamp (the HID-construction block of builder.build_records). -/
def mkHID (config : DistributorConfig) (end_date creation_date : Str) : HIDRecord :=
  { distributor_id := config.distributor_id
    test_flag := if config.test_mode then "T".toList else " ".toList
    end_date := end_date
    distributor_name := config.name
    distributor_address := config.address
    distributor_city := config.city
    distributor_state := config.state
    distributor_zip := config.zip_code
    distributor_country := config.country
    contact_last_name := config.contact_last_name
    contact_first_name := config.contact_first_name
    contact_phone := config.contact_phone
    contact_fax := config.contact_fax
    contact_email := config.contact_email
    pur_measure_count := "0001".toList
    creation_date := creation_date }

/-- builder.build_records.  `creation_date` stands for the
`datetime.now().strftime("%Y%m%d")` timestamp, which is an input of the
model; a `ValueError` anywhere (unparseable date, empty data) yields `none`.
The source binds `sid_lookup = _build_sid_lookup(df)` once and iterates it
for both the SID and the PUR loop; it is inlined here. -/
def build_records (df : List Row) (config : DistributorConfig) (creation_date : Str) :
    Option (HIDRecord × List BIDRecord × List SIDRecord × List PURRecord × TOTRecord) :=
  match _week_end_date (df.map (·.Date)) with
  | none => none
  | some end_date =>
  match mapO mkBID (groupsBy (·.ItemCode) df) with
  | none => none
  | some bid_records =>
  match mapO (mkSID df) (_build_sid_lookup df) with
  | none => none
  | some sid_records =>
  match mapO (mkPURs df) (_build_sid_lookup df) with
  | none => none
  | some pur_nested =>
  let pur_records := pur_nested.flatten
  let hid : HIDRecord := mkHID config end_date creation_date
  let tot : TOTRecord :=
    { distributor_id := config.distributor_id
      end_date := end_date
      bid_count := (bid_records.length : Int)
      sid_count := (sid_records.length : Int)
      pur_count := (pur_records.length : Int)
      total_quantity := sumPURQty pur_records
      total_inventory := sumBIDInv bid_records }
  some (hid, bid_records, sid_records, pur_records, tot)

/-- validator.ValidationResult. -/
structure ValidationResult where
  errors : List Str := []
  warnings : List Str := []
deriving DecidableEq

/-- `ValidationResult.is_valid`: no errors. -/
def ValidationResult.is_valid (r : ValidationResult) : Bool := r.errors.length == 0

/-- Rendering of a rational inside an error message.  The Python source
interpolates `float` reprs here; the exact digits are irrelevant to every
claim (they concern only which errors are emitted), so the model renders
the exact rational as numerator/denominator. -/
def ratStr (q : Rat) : Str := intRepr q.num ++ '/' :: natRepr q.den

/-- validator.validate_output: the five count/sum checks followed by the
per-record width checks for BID, SID and PUR records, all errors collected
in source order.  (The source checks no HID or TOT line width.) -/
def validate_output (bids : List BIDRecord) (sids : List SIDRecord)
    (purs : List PURRecord) (tot : TOTRecord) : ValidationResult :=
  let e1 := if tot.bid_count ≠ (bids.length : Int) then
    ["TOT bid_count (".toList ++ intRepr tot.bid_count
      ++ ") != actual BID records (".toList ++ natRepr bids.length ++ ")".toList]
    else []
  let e2 := if tot.sid_count ≠ (sids.length : Int) then
    ["TOT sid_count (".toList ++ intRepr tot.sid_count
      ++ ") != actual SID records (".toList ++ natRepr sids.length ++ ")".toList]
    else []
  let e3 := if tot.pur_count ≠ (purs.length : Int) then
    ["TOT pur_count (".toList ++ intRepr tot.pur_count
      ++ ") != actual PUR records (".toList ++ natRepr purs.length ++ ")".toList]
    else []
  let actual_qty := sumPURQty purs
  let e4 := if |tot.total_quantity - actual_qty| > 1 / 100 then
    ["TOT total_quantity (".toList ++ ratStr tot.total_quantity
      ++ ") != sum of PUR quantities (".toList ++ ratStr actual_qty ++ ")".toList]
    else []
  let actual_inv := sumBIDInv bids
  let e5 := if |tot.total_inventory - actual_inv| > 1 / 100 then
    ["TOT total_inventory (".toList ++ ratStr tot.total_inventory
      ++ ") != sum of BID inventories (".toList ++ ratStr actual_inv ++ ")".toList]
    else []
  let ebid := (bids.enum.filter fun ib => decide (ib.2.to_line.length ≠ 261)).map fun ib =>
    "BID record ".toList ++ natRepr ib.1 ++ " has width ".toList
      ++ natRepr ib.2.to_line.length ++ ", expected 261".toList
  let esid := (sids.enum.filter fun is => decide (is.2.to_line.length ≠ 551)).map fun is =>
    "SID record ".toList ++ natRepr is.1 ++ " has width ".toList
      ++ natRepr is.2.to_line.length ++ ", expected 551".toList
  let epur := (purs.enum.filter fun ip => decide (ip.2.to_line.length ≠ 130)).map fun ip =>
    "PUR record ".toList ++ natRepr ip.1 ++ " has width ".toList
      ++ natRepr ip.2.to_line.length ++ ", expected 130".toList
  { errors := e1 ++ e2 ++ e3 ++ e4 ++ e5 ++ ebid ++ esid ++ epur }

/-- CR+LF line terminator. -/
def CRLF : Str := "\r\n".toList

/-- writer.write_msa: the byte content written to the file (text mode with
`newline=""`, so `\r\n` is written literally), built by sequential appends. -/
def write_msa (hid : HIDRecord) (bids : List BIDRecord) (sids : List SIDRecord)
    (purs : List PURRecord) (tot : TOTRecord) : Str :=
  hid.to_line ++ CRLF
  ++ (bids.map fun b => b.to_line ++ CRLF).flatten
  ++ (sids.map fun s => s.to_line ++ CRLF).flatten
  ++ (purs.map fun p => p.to_line ++ CRLF).flatten
  ++ tot.to_line ++ CRLF

/-- The ordered line list both writers produce. -/
def msaLines (hid : HIDRecord) (bids : List BIDRecord) (sids : List SIDRecord)
    (purs : List PURRecord) (tot : TOTRecord) : List Str :=
  hid.to_line :: (bids.map (·.to_line) ++ sids.map (·.to_line)
    ++ purs.map (·.to_line) ++ [tot.to_line])

/-- A 7-bit character, i.e. one `str.encode("ascii")` accepts. -/
def isASCII (c : Char) : Bool := c.toNat < 128

/-- Python `sep.join(parts)`. -/
def pyJoin (sep : Str) : List Str → Str
  | [] => []
  | [x] => x
  | x :: xs => x ++ sep ++ pyJoin sep xs

/-- writer.write_msa_bytes: `"\r\n".join(lines).encode("ascii") + b"\r\n"`;
`encode("ascii")` raises (modelled by `none`) on any non-ASCII character. -/
def write_msa_bytes (hid : HIDRecord) (bids : List BIDRecord) (sids : List SIDRecord)
    (purs : List PURRecord) (tot : TOTRecord) : Option Str :=
  if (pyJoin CRLF (msaLines hid bids sids purs tot)).all isASCII
  then some (pyJoin CRLF (msaLines hid bids sids purs tot) ++ CRLF)
  else none

/-- A one-row data set used to instantiate the hypothesis-bearing theorems
at concrete values. -/
def demoRow : Row :=
  { CustomerNumber := "C1".toList
    CustomerName := "N1".toList
    Address := "A1".toList
    City := "CT".toList
    State := "CA".toList
    Zip := "95".toList
    Date := "1/16/2026".toList
    Invoice := "I1".toList
    ItemCode := "X".toList
    ItemDescription := "D1".toList
    Categories := "Cigars".toList
    Promo := "Yes".toList
    CashCarry := "No".toList
    ClassOfTrade := "W".toList
    SellingUnit := "U".toList
    UPCCode := some 5
    Qty := 2
    OnHandInventory := 3
    unit := 200 }

/-- The demo data set. -/
def demoDf : List Row := [demoRow]

/-- Demo configuration: pydantic defaults. -/
def demoCfg : DistributorConfig := {}

/-- Demo creation date. -/
def demoCD : Str := "20260101".toList

/-- The location tuple of the demo row. -/
def demoLoc : LocKey :=
  ⟨"C1".toList, "N1".toList, "A1".toList, "CT".toList, "CA".toList, "95".toList⟩

/-- The header record `build_records` produces on the demo data. -/
def demoHid : HIDRecord :=
  { distributor_id := "10094001".toList
    test_flag := "T".toList
    end_date := "20260117".toList
    distributor_country := "USA".toList
    creation_date := demoCD }

/-- The brand record `build_records` produces on the demo data. -/
def demoBid : BIDRecord :=
  { upc := "5".toList
    sku := "X".toList
    product_description := "D1".toList
    items_per_selling_unit := "200".toList
    promotion_indicator := "Y".toList
    unit_size_description := "U".toList
    mfr_product_id := "5".toList
    msa_category_code := "003251".toList
    inventory := 3 }

/-- The ship-to record `build_records` produces on the demo data. -/
def demoSid : SIDRecord :=
  { customer_number := "C1".toList
    shipping_number := "00000001".toList
    customer_name := "N1".toList
    address := "A1".toList
    city := "CT".toList
    state := "CA".toList
    zip_code := "95".toList
    country := "USA".toList
    class_of_trade := "W".toList
    cash_carry_indicator := "N".toList }

/-- The purchase record `build_records` produces on the demo data. -/
def demoPur : PURRecord :=
  { customer_number := "C1".toList
    shipping_number := "00000001".toList
    sku := "X".toList
    invoice_number := "I1".toList
    transaction_date := "20260116".toList
    quantity := 2 }

/-- The total record `build_records` produces on the demo data. -/
def demoTot : TOTRecord :=
  { distributor_id := "10094001".toList
    end_date := "20260117".toList
    bid_count := 1
    sid_count := 1
    pur_count := 1
    total_quantity := 2
    total_inventory := 3 }

/-- A row dated 9/2/2025 (quantity 1), for the purchase-date analysis. -/
def c4RowA : Row := { demoRow with Date := "9/2/2025".toList, Qty := 1 }

/-- A second row of the same location and item dated 10/1/2025 (quantity 2);
chronologically later than `c4RowA` but lexicographically smaller as a string. -/
def c4RowB : Row := { demoRow with Date := "10/1/2025".toList, Qty := 2 }

/-- Two-row data set whose item group mixes the two date spellings. -/
def c4Df : List Row := [c4RowA, c4RowB]

/-- The header `build_records` produces on `c4Df`. -/
def c4Hid : HIDRecord := { demoHid with end_date := "20251004".toList }

/-- The brand record `build_records` produces on `c4Df`. -/
def c4Bid : BIDRecord := demoBid

/-- The ship-to record `build_records` produces on `c4Df`. -/
def c4Sid : SIDRecord := demoSid

/-- The purchase record `build_records` produces on `c4Df`: its transaction
date is the lexicographic maximum 9/2/2025, not the chronological maximum
10/1/2025. -/
def c4Pur : PURRecord :=
  { demoPur with transaction_date := "20250902".toList, quantity := 3 }

/-- The total record `build_records` produces on `c4Df`. -/
def c4Tot : TOTRecord :=
  { demoTot with end_date := "20251004".toList, total_quantity := 3 }

/-! ### Supporting lemmas -/

theorem fmt_length (v : Str) (w : Nat) (j : Str) (f : Char) :
    (fmt v w j f).length = w := by
  simp only [fmt, ljust, rjust]
  split <;> split <;>
    simp only [List.length_append, List.length_replicate, List.length_take] <;> omega

theorem natReprAux_len_pos (fuel n : Nat) : 1 ≤ (natReprAux (fuel + 1) n).length := by
  simp only [natReprAux]
  split
  · simp
  · simp [List.length_append]

theorem natReprAux_length_le_iff :
    ∀ fuel n k : Nat, n < 10 ^ fuel → 1 ≤ k →
      ((natReprAux fuel n).length ≤ k ↔ n < 10 ^ k) := by
  intro fuel
  induction fuel with
  | zero =>
    intro n k hn _
    have hn0 : n = 0 := by simpa using hn
    subst hn0
    simp only [natReprAux, List.length_nil]
    constructor
    · intro _; exact pow_pos (by norm_num) k
    · intro _; omega
  | succ fuel ih =>
    intro n k hn hk
    simp only [natReprAux]
    split
    · next h10 =>
      simp only [List.length_singleton]
      have h10k : (10 : Nat) ≤ 10 ^ k :=
        calc (10 : Nat) = 10 ^ 1 := (pow_one 10).symm
          _ ≤ 10 ^ k := Nat.pow_le_pow_right (by norm_num) hk
      constructor
      · intro _; omega
      · intro _; exact hk
    · next h10 =>
      rw [List.length_append]
      simp only [List.length_singleton]
      rcases Nat.lt_or_ge k 2 with hk2 | hk2
      · have hk1 : k = 1 := by omega
        subst hk1
        have hfuel : 1 ≤ fuel := by
          by_contra hf
          have hf0 : fuel = 0 := by omega
          subst hf0
          have : n < 10 := by simpa using hn
          omega
        obtain ⟨fp, rfl⟩ : ∃ fp, fuel = fp + 1 := ⟨fuel - 1, by omega⟩
        have hpos := natReprAux_len_pos fp (n / 10)
        have hp1 : (10 : Nat) ^ 1 = 10 := pow_one 10
        constructor
        · intro hle; omega
        · intro hlt; omega
      · obtain ⟨kp, rfl⟩ : ∃ kp, k = kp + 1 := ⟨k - 1, by omega⟩
        have hkp : 1 ≤ kp := by omega
        have hdiv : n / 10 < 10 ^ fuel := by
          rw [Nat.div_lt_iff_lt_mul (by norm_num : 0 < 10)]
          calc n < 10 ^ (fuel + 1) := hn
            _ = 10 ^ fuel * 10 := pow_succ 10 fuel
        have hiff := ih (n / 10) kp hdiv hkp
        constructor
        · intro hle
          have hd : (natReprAux fuel (n / 10)).length ≤ kp := by omega
          have hlt := hiff.mp hd
          rw [pow_succ]
          exact (Nat.div_lt_iff_lt_mul (by norm_num : 0 < 10)).mp hlt
        · intro hlt
          have hd : n / 10 < 10 ^ kp := by
            rw [Nat.div_lt_iff_lt_mul (by norm_num : 0 < 10), ← pow_succ]
            exact hlt
          have := hiff.mpr hd
          omega

theorem natRepr_length_le_iff (n k : Nat) (hk : 1 ≤ k) :
    (natRepr n).length ≤ k ↔ n < 10 ^ k := by
  refine natReprAux_length_le_iff (n + 1) n k ?_ hk
  calc n < 10 ^ n := Nat.lt_pow_self (by norm_num) n
    _ ≤ 10 ^ (n + 1) := Nat.pow_le_pow_right (by norm_num) (by omega)

theorem rjust_length (s : Str) (w : Nat) (f : Char) :
    (rjust s w f).length = max w s.length := by
  simp only [rjust, List.length_append, List.length_replicate]
  omega

theorem twoFrac_length (m : Nat) : (twoFrac m).length = 2 := rfl

theorem fmt_real_length (v : Rat) (w : Nat) (f : Char) (hw : 5 ≤ w)
    (hfit : fitsReal v w) : (fmt_real v w f).length = w := by
  unfold fmt_real
  unfold fitsReal at hfit
  by_cases hneg : v < 0
  · simp only [if_pos hneg] at hfit ⊢
    have hdig : (natRepr ((rnd2 |v|).toNat / 100)).length ≤ w - 4 := by
      rw [natRepr_length_le_iff _ _ (by omega)]
      rw [Nat.div_lt_iff_lt_mul (by norm_num : 0 < 100)]
      calc (rnd2 |v|).toNat < 100 * 10 ^ (w - 4) := hfit
        _ = 10 ^ (w - 4) * 100 := by ring
    simp only [List.length_cons, rjust_length, List.length_append, twoFrac_length]
    omega
  · simp only [if_neg hneg] at hfit ⊢
    have hdig : (natRepr ((rnd2 |v|).toNat / 100)).length ≤ w - 3 := by
      rw [natRepr_length_le_iff _ _ (by omega)]
      rw [Nat.div_lt_iff_lt_mul (by norm_num : 0 < 100)]
      calc (rnd2 |v|).toNat < 100 * 10 ^ (w - 3) := hfit
        _ = 10 ^ (w - 3) * 100 := by ring
    simp only [rjust_length, List.length_append, List.length_cons, twoFrac_length]
    omega

/-! ### Claim C7 -/

/-- Claim C7: for every value, width, justification and fill character, `fmt`
returns exactly `width` characters, truncating longer values without error and
padding shorter ones with the fill character on the side opposite the
justification (left-justified values are padded on the right, all others on
the left). -/
theorem claim_c7_fmt_contract (v : Str) (w : Nat) (j : Str) (f : Char) :
    (fmt v w j f).length = w ∧
    fmt v w j f =
      (if j = jL then v.take w ++ List.replicate (w - v.length) f
       else List.replicate (w - v.length) f ++ v.take w) := by
  refine ⟨fmt_length v w j f, ?_⟩
  simp only [fmt, ljust, rjust]
  by_cases hl : w < v.length
  · simp only [if_pos hl, List.length_take]
    have h0 : w - min w v.length = w - v.length := by omega
    rw [h0]
  · simp only [if_neg hl]
    have hv : v.take w = v := List.take_of_length_le (by omega)
    rw [hv]

/-! ### Claim C1 -/

/-- Claim C1 (amended): header and ship-to lines always have exactly 337 and
551 bytes; brand, purchase and total lines have exactly 261, 130 and 140
bytes provided every real-number measure value, rounded to hundredths, fits
its slot (below 10^8 for the 11-wide fields, 10^12 for the 15-wide fields,
one decade less when negative) — string fields are truncated and can never
overflow, but `fmt_real` does not truncate. -/
theorem claim_c1_line_lengths (h : HIDRecord) (b : BIDRecord) (s : SIDRecord)
    (p : PURRecord) (t : TOTRecord)
    (hb : fitsReal b.inventory 11)
    (hp : fitsReal p.quantity 11)
    (hpd : ∀ x, p.dollars = some x → fitsReal x 11)
    (htq : fitsReal t.total_quantity 15)
    (hti : fitsReal t.total_inventory 15)
    (htd : ∀ x, t.total_dollars = some x → fitsReal x 15) :
    h.to_line.length = 337 ∧ b.to_line.length = 261 ∧ s.to_line.length = 551 ∧
    p.to_line.length = 130 ∧ t.to_line.length = 140 := by
  refine ⟨?_, ?_, ?_, ?_, ?_⟩
  · simp only [HIDRecord.to_line, List.length_append, fmt_length]
  · simp only [BIDRecord.to_line, List.length_append, fmt_length,
      fmt_real_length b.inventory 11 '0' (by norm_num) hb]
  · simp only [SIDRecord.to_line, List.length_append, fmt_length]
  · cases hd : p.dollars with
    | none =>
      simp only [PURRecord.to_line, hd, List.length_append, fmt_length,
        fmt_real_length p.quantity 11 '0' (by norm_num) hp]
    | some x =>
      simp only [PURRecord.to_line, hd, List.length_append, fmt_length,
        fmt_real_length p.quantity 11 '0' (by norm_num) hp,
        fmt_real_length x 11 '0' (by norm_num) (hpd x hd)]
  · cases hd : t.total_dollars with
    | none =>
      simp only [TOTRecord.to_line, hd, List.length_append, fmt_length,
        fmt_real_length t.total_quantity 15 '0' (by norm_num) htq,
        fmt_real_length t.total_inventory 15 '0' (by norm_num) hti]
    | some x =>
      simp only [TOTRecord.to_line, hd, List.length_append, fmt_length,
        fmt_real_length t.total_quantity 15 '0' (by norm_num) htq,
        fmt_real_length t.total_inventory 15 '0' (by norm_num) hti,
        fmt_real_length x 15 '0' (by norm_num) (htd x hd)]

/-- Witness for C1: the default records satisfy the fit hypotheses and their
lines have the five mandated lengths. -/
theorem claim_c1_witness :
    ({} : HIDRecord).to_line.length = 337 ∧ ({} : BIDRecord).to_line.length = 261 ∧
    ({} : SIDRecord).to_line.length = 551 ∧ ({} : PURRecord).to_line.length = 130 ∧
    ({} : TOTRecord).to_line.length = 140 :=
  claim_c1_line_lengths {} {} {} {} {}
    (by unfold fitsReal; with_unfolding_all decide)
    (by unfold fitsReal; with_unfolding_all decide)
    (fun x hx => Option.noConfusion hx)
    (by unfold fitsReal; with_unfolding_all decide)
    (by unfold fitsReal; with_unfolding_all decide)
    (fun x hx => Option.noConfusion hx)

set_option maxRecDepth 8000 in
/-- Counterexample for C1 as stated: a purchase record whose quantity is
10^8 encodes to a 131-byte line, not 130. -/
theorem claim_c1_counterexample :
    ({ quantity := 100000000 } : PURRecord).to_line.length = 131 ∧
    ({ quantity := 100000000 } : PURRecord).to_line.length ≠ 130 := by
  constructor <;> with_unfolding_all decide

/-! ### Claim C3 -/

/-- Claim C3: for every non-empty list of parseable dates, `_week_end_date`
renders the day obtained by advancing the maximal date by
`(5 - weekday) % 7` days (Monday = 0 .. Sunday = 6, Saturday = 5), and that
day is the minimal Saturday greater than or equal to the maximum date; in
particular 1/16/2026 (a Friday) maps to 20260117, 1/17/2026 (a Saturday) to
itself and 1/18/2026 (a Sunday) to 20260124. -/
theorem claim_c3_week_end_date :
    (∀ (dates : List Str) (os : List Int) (g : Int),
      mapO parseOrd dates = some os → maxListI os = some g →
      _week_end_date dates = some (renderOrd (g + (5 - pyWeekday g) % 7)) ∧
      pyWeekday (g + (5 - pyWeekday g) % 7) = 5 ∧
      g ≤ g + (5 - pyWeekday g) % 7 ∧
      (∀ gp : Int, pyWeekday gp = 5 → g ≤ gp → g + (5 - pyWeekday g) % 7 ≤ gp)) ∧
    _week_end_date ["1/16/2026".toList] = some ("20260117".toList) ∧
    _week_end_date ["1/17/2026".toList] = some ("20260117".toList) ∧
    _week_end_date ["1/18/2026".toList] = some ("20260124".toList) := by
  refine ⟨?_, by decide, by decide, by decide⟩
  intro dates os g hmap hmax
  have hdead : ¬((5 - pyWeekday g) % 7 = 0 ∧ pyWeekday g ≠ 5) := by
    unfold pyWeekday
    omega
  refine ⟨?_, ?_, ?_, ?_⟩
  · unfold _week_end_date
    simp only [hmap, hmax]
    rw [if_neg hdead]
  · unfold pyWeekday
    omega
  · unfold pyWeekday
    omega
  · intro gp h5 hge
    unfold pyWeekday at h5 ⊢
    omega

/-- Witness for C3: the universal part applied to the singleton date list
[1/16/2026], whose ordinal is that of 2026-01-16. -/
theorem claim_c3_witness :
    _week_end_date ["1/16/2026".toList]
      = some (renderOrd ((toordinal 2026 1 16 : Int)
          + (5 - pyWeekday (toordinal 2026 1 16 : Int)) % 7)) ∧
    pyWeekday ((toordinal 2026 1 16 : Int)
      + (5 - pyWeekday (toordinal 2026 1 16 : Int)) % 7) = 5 :=
  have h := (claim_c3_week_end_date.1 ["1/16/2026".toList]
    [(toordinal 2026 1 16 : Int)] (toordinal 2026 1 16 : Int)
    (by decide) (by decide))
  ⟨h.1, h.2.1⟩

/-! ### Claim C8 -/

/-- Claim C8: `fmt_date` tries month/day/year with slashes, ISO
year-month-day, month-day-year with dashes, then bare YYYYMMDD, in that
order; it returns the YYYYMMDD rendering of the first matching format, and
when none matches it raises a typed parse failure whose message names the
(stripped) unparseable input. -/
theorem claim_c8_fmt_date_order :
    (∀ (s : Str) d, parseSlash (strip s) = some d →
        fmt_date s = Except.ok (renderYMD d)) ∧
    (∀ (s : Str) d, parseSlash (strip s) = none → parseISO (strip s) = some d →
        fmt_date s = Except.ok (renderYMD d)) ∧
    (∀ (s : Str) d, parseSlash (strip s) = none → parseISO (strip s) = none →
        parseDashMDY (strip s) = some d → fmt_date s = Except.ok (renderYMD d)) ∧
    (∀ (s : Str) d, parseSlash (strip s) = none → parseISO (strip s) = none →
        parseDashMDY (strip s) = none → parseCompact (strip s) = some d →
        fmt_date s = Except.ok (renderYMD d)) ∧
    (∀ s : Str, parseSlash (strip s) = none → parseISO (strip s) = none →
        parseDashMDY (strip s) = none → parseCompact (strip s) = none →
        fmt_date s = Except.error ("Cannot parse date: ".toList ++ strip s)) := by
  refine ⟨?_, ?_, ?_, ?_, ?_⟩
  · intro s d h1
    unfold fmt_date parseDateChain
    simp only [h1]
  · intro s d h1 h2
    unfold fmt_date parseDateChain
    simp only [h1, h2]
  · intro s d h1 h2 h3
    unfold fmt_date parseDateChain
    simp only [h1, h2, h3]
  · intro s d h1 h2 h3 h4
    unfold fmt_date parseDateChain
    simp only [h1, h2, h3, h4]
  · intro s h1 h2 h3 h4
    unfold fmt_date parseDateChain
    simp only [h1, h2, h3, h4]

/-- Witness for C8: a slash-format date parses through the first format, and
an unparseable string yields the typed error naming it. -/
theorem claim_c8_witness :
    fmt_date ("1/16/2026".toList) = Except.ok (renderYMD (2026, 1, 16)) ∧
    fmt_date ("not-a-date".toList)
      = Except.error ("Cannot parse date: ".toList ++ strip ("not-a-date".toList)) :=
  ⟨claim_c8_fmt_date_order.1 ("1/16/2026".toList) (2026, 1, 16) (by decide),
   claim_c8_fmt_date_order.2.2.2.2 ("not-a-date".toList)
     (by decide) (by decide) (by decide) (by decide)⟩

/-! ### Claim C5 -/

theorem countP_insertLe (le : α → α → Bool) (p : α → Bool) (a : α) :
    ∀ l : List α, (insertLe le a l).countP p = (a :: l).countP p := by
  intro l
  induction l with
  | nil => rfl
  | cons b bs ih =>
    simp only [insertLe]
    split
    · rfl
    · simp only [List.countP_cons] at ih ⊢
      omega

theorem countP_sortLe (le : α → α → Bool) (p : α → Bool) :
    ∀ l : List α, (sortLe le l).countP p = l.countP p := by
  intro l
  induction l with
  | nil => rfl
  | cons a as ih =>
    simp only [sortLe]
    rw [countP_insertLe]
    simp only [List.countP_cons, ih]

theorem sidAssign_filter (c : Str) :
    ∀ (L : List LocKey) (seq : Str → Nat),
      ((sidAssign L seq).filter fun kv => decide (kv.1.cust = c)).map Prod.snd
        = (List.range (L.countP fun l => decide (l.cust = c))).map
            (fun i => zfill8 (seq c + i + 1)) := by
  intro L
  induction L with
  | nil => intro seq; rfl
  | cons l ls ih =>
    intro seq
    by_cases hc : l.cust = c
    · simp only [sidAssign, List.filter_cons, List.countP_cons, hc, decide_True,
        if_true, List.map_cons, ih, List.range_succ_eq_map, List.map_map]
      simp only [Nat.add_zero]
      congr 1
      apply List.map_congr_left
      intro i _
      simp only [Function.comp_apply]
      apply congrArg zfill8
      omega
    · have hdec : (decide (l.cust = c)) = false := by simp [hc]
      have hseq : (if c = l.cust then seq l.cust + 1 else seq c) = seq c :=
        if_neg (by intro h; exact hc h.symm)
      simp only [sidAssign, List.filter_cons, hdec, Bool.false_eq_true, if_false,
        List.countP_cons, Nat.add_zero]
      rw [ih]
      simp only [hseq]

/-- Claim C5: for every row set and customer, regardless of row order, the
shipping numbers assigned to that customer's distinct locations are exactly
the 8-digit zero-filled contiguous sequence 1..k, where k is the customer's
number of distinct locations. -/
theorem claim_c5_shipping_numbers (df : List Row) (c : Str) :
    ((_build_sid_lookup df).filter fun kv => decide (kv.1.cust = c)).map Prod.snd
      = (List.range (((dedupFirst (df.map locTuple)).filter
          fun l => decide (l.cust = c)).length)).map (fun i => zfill8 (i + 1)) := by
  unfold _build_sid_lookup
  rw [sidAssign_filter]
  rw [countP_sortLe, ← List.countP_eq_length_filter]
  simp

/-! ### Claim C2 -/

theorem build_records_some {df : List Row} {config : DistributorConfig} {cd : Str}
    {hid : HIDRecord} {bids : List BIDRecord} {sids : List SIDRecord}
    {purs : List PURRecord} {tot : TOTRecord}
    (h : build_records df config cd = some (hid, bids, sids, purs, tot)) :
    ∃ end_date pur_nested,
      _week_end_date (df.map (·.Date)) = some end_date ∧
      mapO mkBID (groupsBy (·.ItemCode) df) = some bids ∧
      mapO (mkSID df) (_build_sid_lookup df) = some sids ∧
      mapO (mkPURs df) (_build_sid_lookup df) = some pur_nested ∧
      purs = pur_nested.flatten ∧
      tot = { distributor_id := config.distributor_id
              end_date := end_date
              bid_count := (bids.length : Int)
              sid_count := (sids.length : Int)
              pur_count := (purs.length : Int)
              total_quantity := sumPURQty purs
              total_inventory := sumBIDInv bids } := by
  unfold build_records at h
  split at h
  · exact Option.noConfusion h
  next end_date hw =>
    split at h
    · exact Option.noConfusion h
    next bl hb =>
      split at h
      · exact Option.noConfusion h
      next sl hs =>
        split at h
        · exact Option.noConfusion h
        next pn hp =>
          simp only [Option.some_inj, Prod.mk.injEq] at h
          obtain ⟨hhid, hbl, hsl, hpurs, htot⟩ := h
          subst hbl
          subst hsl
          subst hpurs
          exact ⟨end_date, pn, hw, hb, hs, hp, rfl, htot.symm⟩

/-- Claim C2: for every row set on which the build succeeds, the total
record's counts equal the lengths of the built record lists, and its
quantity and inventory totals equal the corresponding sums within 0.01. -/
theorem claim_c2_control_totals (df : List Row) (config : DistributorConfig) (cd : Str)
    (hid : HIDRecord) (bids : List BIDRecord) (sids : List SIDRecord)
    (purs : List PURRecord) (tot : TOTRecord)
    (h : build_records df config cd = some (hid, bids, sids, purs, tot)) :
    tot.bid_count = (bids.length : Int) ∧
    tot.sid_count = (sids.length : Int) ∧
    tot.pur_count = (purs.length : Int) ∧
    |tot.total_quantity - sumPURQty purs| ≤ 1 / 100 ∧
    |tot.total_inventory - sumBIDInv bids| ≤ 1 / 100 := by
  obtain ⟨ed, pn, _, _, _, _, _, htot⟩ := build_records_some h
  subst htot
  refine ⟨rfl, rfl, rfl, ?_, ?_⟩ <;>
    · simp only [sub_self, abs_zero]
      norm_num

/-- Witness for C2: the demo build's total record satisfies all five
control-total invariants. -/
theorem claim_c2_witness :
    demoTot.bid_count = (([demoBid] : List BIDRecord).length : Int) ∧
    demoTot.sid_count = (([demoSid] : List SIDRecord).length : Int) ∧
    demoTot.pur_count = (([demoPur] : List PURRecord).length : Int) ∧
    |demoTot.total_quantity - sumPURQty [demoPur]| ≤ 1 / 100 ∧
    |demoTot.total_inventory - sumBIDInv [demoBid]| ≤ 1 / 100 :=
  claim_c2_control_totals demoDf demoCfg demoCD demoHid [demoBid] [demoSid] [demoPur]
    demoTot (by with_unfolding_all decide)

/-! ### Claim C10 -/

theorem head?_some_mem {l : List α} {a : α} (h : l.head? = some a) : a ∈ l := by
  cases l with
  | nil => cases h
  | cons x xs =>
    simp only [List.head?_cons, Option.some_inj] at h
    subst h
    exact List.mem_cons_self x xs

theorem mapO_mem_of_mem {f : α → Option β} :
    ∀ {l : List α} {ys : List β}, mapO f l = some ys → ∀ {a}, a ∈ l →
      ∃ b, f a = some b ∧ b ∈ ys := by
  intro l
  induction l with
  | nil =>
    intro ys h a ha
    cases ha
  | cons x xs ih =>
    intro ys h a ha
    unfold mapO at h
    cases hx : f x with
    | none =>
      rw [hx] at h
      exact Option.noConfusion h
    | some b =>
      rw [hx] at h
      cases hxs : mapO f xs with
      | none =>
        rw [hxs] at h
        exact Option.noConfusion h
      | some bs =>
        rw [hxs] at h
        simp only [Option.some_inj] at h
        subst h
        rcases List.mem_cons.mp ha with rfl | hmem
        · exact ⟨b, hx, List.mem_cons_self _ _⟩
        · obtain ⟨b2, hb2, hmem2⟩ := ih hxs hmem
          exact ⟨b2, hb2, List.mem_cons_of_mem _ hmem2⟩

theorem mapO_mem_rev {f : α → Option β} :
    ∀ {l : List α} {ys : List β}, mapO f l = some ys → ∀ {b}, b ∈ ys →
      ∃ a ∈ l, f a = some b := by
  intro l
  induction l with
  | nil =>
    intro ys h b hb
    simp only [mapO, Option.some_inj] at h
    subst h
    cases hb
  | cons x xs ih =>
    intro ys h b hb
    unfold mapO at h
    cases hx : f x with
    | none =>
      rw [hx] at h
      exact Option.noConfusion h
    | some b1 =>
      rw [hx] at h
      cases hxs : mapO f xs with
      | none =>
        rw [hxs] at h
        exact Option.noConfusion h
      | some bs =>
        rw [hxs] at h
        simp only [Option.some_inj] at h
        subst h
        rcases List.mem_cons.mp hb with rfl | hmem
        · exact ⟨x, List.mem_cons_self _ _, hx⟩
        · obtain ⟨a, ha, hab⟩ := ih hxs hmem
          exact ⟨a, List.mem_cons_of_mem _ ha, hab⟩

theorem mem_dedupFirstAux [DecidableEq α] :
    ∀ (l seen : List α) (a : α),
      a ∈ dedupFirstAux seen l ↔ a ∈ l ∧ a ∉ seen := by
  intro l
  induction l with
  | nil =>
    intro seen a
    simp [dedupFirstAux]
  | cons x xs ih =>
    intro seen a
    unfold dedupFirstAux
    by_cases hx : x ∈ seen
    · rw [if_pos hx, ih]
      constructor
      · rintro ⟨hm, hn⟩
        exact ⟨List.mem_cons_of_mem _ hm, hn⟩
      · rintro ⟨hm, hn⟩
        rcases List.mem_cons.mp hm with rfl | h2
        · exact absurd hx hn
        · exact ⟨h2, hn⟩
    · rw [if_neg hx]
      constructor
      · intro hm
        rcases List.mem_cons.mp hm with rfl | h2
        · exact ⟨List.mem_cons_self _ _, hx⟩
        · obtain ⟨h3, h4⟩ := (ih _ _).mp h2
          exact ⟨List.mem_cons_of_mem _ h3,
            fun hseen => h4 (List.mem_cons_of_mem _ hseen)⟩
      · rintro ⟨hm, hn⟩
        by_cases hax : a = x
        · subst hax
          exact List.mem_cons_self _ _
        · rcases List.mem_cons.mp hm with rfl | h2
          · exact absurd rfl hax
          · refine List.mem_cons_of_mem _ ((ih _ _).mpr ⟨h2, ?_⟩)
            intro hmem
            rcases List.mem_cons.mp hmem with h3 | h3
            · exact hax h3
            · exact hn h3

theorem mem_dedupFirst [DecidableEq α] (l : List α) (a : α) :
    a ∈ dedupFirst l ↔ a ∈ l := by
  unfold dedupFirst
  rw [mem_dedupFirstAux]
  simp

theorem mem_insertLe (le : α → α → Bool) (b a : α) :
    ∀ l, a ∈ insertLe le b l ↔ a ∈ b :: l := by
  intro l
  induction l with
  | nil => exact Iff.rfl
  | cons c cs ih =>
    unfold insertLe
    split
    · exact Iff.rfl
    · rw [List.mem_cons, ih]
      simp only [List.mem_cons]
      tauto

theorem mem_sortLe (le : α → α → Bool) (a : α) :
    ∀ l, a ∈ sortLe le l ↔ a ∈ l := by
  intro l
  induction l with
  | nil => exact Iff.rfl
  | cons c cs ih =>
    unfold sortLe
    rw [mem_insertLe, List.mem_cons, ih, List.mem_cons]

theorem groupsBy_mem_of_ne_nil (key : Row → Str) (df : List Row) (k : Str)
    (h : (df.filter fun r => decide (key r = k)) ≠ []) :
    (k, df.filter fun r => decide (key r = k)) ∈ groupsBy key df := by
  unfold groupsBy
  have hk : k ∈ df.map key := by
    rcases List.exists_mem_of_ne_nil _ h with ⟨r, hr⟩
    have hr2 := List.mem_filter.mp hr
    exact List.mem_map.mpr ⟨r, hr2.1, of_decide_eq_true hr2.2⟩
  have hk2 : k ∈ sortLe strLe (dedupFirst (df.map key)) := by
    rw [mem_sortLe, mem_dedupFirst]
    exact hk
  exact List.mem_map_of_mem _ hk2

theorem groupsBy_mem_elim {key : Row → Str} {df : List Row} {k : Str} {grp : List Row}
    (h : (k, grp) ∈ groupsBy key df) :
    grp = df.filter fun r => decide (key r = k) := by
  unfold groupsBy at h
  obtain ⟨k2, _, heq⟩ := List.mem_map.mp h
  obtain ⟨h1, h2⟩ := Prod.mk.injEq .. |>.mp heq
  subst h1
  exact h2.symm

/-- Claim C10: unmapped yes/no text is treated as No — a brand's
promotion indicator is Y exactly when some row of its item group has a Promo
value that YES_NO_MAP sends to Y, and each ship-to record's cash-and-carry
indicator is the YES_NO_MAP image of its selected row's CashCarry value with
default N (hence N whenever that value is unmapped). -/
theorem claim_c10_yes_no_mapping (df : List Row) (config : DistributorConfig) (cd : Str)
    (hid : HIDRecord) (bids : List BIDRecord) (sids : List SIDRecord)
    (purs : List PURRecord) (tot : TOTRecord)
    (h : build_records df config cd = some (hid, bids, sids, purs, tot)) :
    (∀ b ∈ bids, (b.promotion_indicator = "Y".toList ↔
        ∃ r ∈ df, r.ItemCode = b.sku ∧
          alistGet r.Promo YES_NO_MAP = some ("Y".toList))) ∧
    (∀ s ∈ sids, ∃ r ∈ df,
        r.CustomerNumber = s.customer_number ∧ r.Address = s.address ∧
        r.City = s.city ∧
        s.cash_carry_indicator = (alistGet r.CashCarry YES_NO_MAP).getD ("N".toList)) := by
  obtain ⟨ed, pn, hw, hb, hs, hp, hpurs, htot⟩ := build_records_some h
  constructor
  · intro b hbmem
    obtain ⟨g, hgmem, hgb⟩ := mapO_mem_rev hb hbmem
    rcases g with ⟨sku, grp⟩
    have hgrp : grp = df.filter fun r => decide (r.ItemCode = sku) :=
      groupsBy_mem_elim hgmem
    unfold mkBID at hgb
    split at hgb
    · exact Option.noConfusion hgb
    next row hrow =>
      split at hgb
      · exact Option.noConfusion hgb
      next inv hinv =>
        simp only [Option.some_inj] at hgb
        subst hgb
        simp only
        by_cases hany :
            grp.any (fun r => decide (alistGet r.Promo YES_NO_MAP = some ("Y".toList)))
        · rw [if_pos hany]
          constructor
          · intro _
            obtain ⟨r, hrg, hrp⟩ := List.any_eq_true.mp hany
            rw [hgrp] at hrg
            have hrf := List.mem_filter.mp hrg
            exact ⟨r, hrf.1, of_decide_eq_true hrf.2, of_decide_eq_true hrp⟩
          · intro _
            rfl
        · rw [if_neg hany]
          constructor
          · intro hyn
            exact absurd hyn (by decide)
          · rintro ⟨r, hrdf, hrsku, hrmap⟩
            exfalso
            apply hany
            refine List.any_eq_true.mpr ⟨r, ?_, by simp [hrmap]⟩
            rw [hgrp]
            exact List.mem_filter.mpr ⟨hrdf, by simp [hrsku]⟩
  · intro s hsmem
    obtain ⟨kv, hkvmem, hkv⟩ := mapO_mem_rev hs hsmem
    unfold mkSID at hkv
    split at hkv
    · exact Option.noConfusion hkv
    next row hrow =>
      simp only [Option.some_inj] at hkv
      subst hkv
      have hrmem := head?_some_mem hrow
      have hrf := List.mem_filter.mp hrmem
      have hmask := of_decide_eq_true hrf.2
      exact ⟨row, hrf.1, hmask.1, hmask.2.1, hmask.2.2, rfl⟩

/-- Witness for C10: on the demo data the single brand record's promotion
indicator is Y exactly because the demo row's Promo value maps to Y. -/
theorem claim_c10_witness :
    demoBid.promotion_indicator = "Y".toList ↔
      ∃ r ∈ demoDf, r.ItemCode = demoBid.sku ∧
        alistGet r.Promo YES_NO_MAP = some ("Y".toList) :=
  (claim_c10_yes_no_mapping demoDf demoCfg demoCD demoHid [demoBid] [demoSid]
    [demoPur] demoTot (by with_unfolding_all decide)).1 demoBid (by simp)

/-! ### Claim C4 -/

/-- Claim C4 (amended): for every lookup entry (location, shipping number)
and item code with a non-empty group, where the group consists of the rows
matching the location's (customer number, address, city) — not the full
location tuple — a purchase record is built carrying the group's summed
quantity, the lexicographically maximal raw date string of the group pushed
through `fmt_date` (the chronological maximum only when the spellings make
string order agree with date order), and the invoice number of the group's
first row in source order. -/
theorem claim_c4_purchase_aggregation (df : List Row) (config : DistributorConfig)
    (cd : Str) (hid : HIDRecord) (bids : List BIDRecord) (sids : List SIDRecord)
    (purs : List PURRecord) (tot : TOTRecord)
    (h : build_records df config cd = some (hid, bids, sids, purs, tot))
    (key : LocKey) (ship : Str) (hk : (key, ship) ∈ _build_sid_lookup df) (sku : Str)
    (hne : ((df.filter (locMask key)).filter fun r => decide (r.ItemCode = sku)) ≠ []) :
    ∃ p ∈ purs,
      p.customer_number = key.cust ∧ p.shipping_number = ship ∧ p.sku = sku ∧
      p.quantity
        = rowSumQ ((df.filter (locMask key)).filter fun r => decide (r.ItemCode = sku)) ∧
      (∃ dmax,
        strMaxList (((df.filter (locMask key)).filter
          fun r => decide (r.ItemCode = sku)).map (·.Date)) = some dmax ∧
        fmt_date dmax = Except.ok p.transaction_date) ∧
      (∃ r0 rest,
        ((df.filter (locMask key)).filter fun r => decide (r.ItemCode = sku))
          = r0 :: rest ∧
        p.invoice_number = r0.Invoice) := by
  obtain ⟨ed, pn, hw, hb, hs, hp, hpurs, htot⟩ := build_records_some h
  obtain ⟨pl, hpl, hplmem⟩ := mapO_mem_of_mem hp hk
  unfold mkPURs at hpl
  dsimp only at hpl
  have hgmem := groupsBy_mem_of_ne_nil (fun r => r.ItemCode)
    (df.filter (locMask key)) sku hne
  obtain ⟨p, hpeq, hpmem⟩ := mapO_mem_of_mem hpl hgmem
  unfold mkPUR at hpeq
  dsimp only at hpeq
  split at hpeq
  · exact Option.noConfusion hpeq
  next r0 hr0 =>
    split at hpeq
    · exact Option.noConfusion hpeq
    next dmax hdmax =>
      split at hpeq
      · exact Option.noConfusion hpeq
      next td htd =>
        simp only [Option.some_inj] at hpeq
        subst hpeq
        have hok : fmt_date dmax = Except.ok td := by
          cases hfd : fmt_date dmax with
          | error e =>
            rw [hfd] at htd
            exact Option.noConfusion htd
          | ok v =>
            rw [hfd] at htd
            simp only [Except.toOption, Option.some_inj] at htd
            rw [htd]
        have hmem2 := List.mem_flatten.mpr ⟨pl, hplmem, hpmem⟩
        rw [← hpurs] at hmem2
        obtain ⟨r1, rest, hcons⟩ := List.exists_cons_of_ne_nil hne
        have hr1 : r1 = r0 := by
          rw [hcons] at hr0
          simp only [List.head?_cons, Option.some_inj] at hr0
          exact hr0
        subst hr1
        exact ⟨_, hmem2, rfl, rfl, rfl, rfl, ⟨dmax, hdmax, hok⟩, ⟨r1, rest, hcons, rfl⟩⟩

/-- Witness for C4: applied to the one-row demo data, its single location,
and item code X. -/
theorem claim_c4_witness :
    ∃ p ∈ [demoPur],
      p.customer_number = demoLoc.cust ∧ p.shipping_number = "00000001".toList ∧
      p.sku = "X".toList ∧
      p.quantity = rowSumQ ((demoDf.filter (locMask demoLoc)).filter
        fun r => decide (r.ItemCode = "X".toList)) ∧
      (∃ dmax, strMaxList (((demoDf.filter (locMask demoLoc)).filter
          fun r => decide (r.ItemCode = "X".toList)).map (·.Date)) = some dmax ∧
        fmt_date dmax = Except.ok p.transaction_date) ∧
      (∃ r0 rest, ((demoDf.filter (locMask demoLoc)).filter
          fun r => decide (r.ItemCode = "X".toList)) = r0 :: rest ∧
        p.invoice_number = r0.Invoice) :=
  claim_c4_purchase_aggregation demoDf demoCfg demoCD demoHid [demoBid] [demoSid]
    [demoPur] demoTot (by with_unfolding_all decide) demoLoc ("00000001".toList)
    (by with_unfolding_all decide) ("X".toList) (by with_unfolding_all decide)

set_option maxRecDepth 8000 in
/-- Counterexample for C4 as stated: in `c4Df` the (location, item X) group
contains dates 9/2/2025 and 10/1/2025; the chronological (most recent)
maximum is 10/1/2025, rendered 20251001, but the built purchase record
carries 20250902, the lexicographic maximum of the raw strings. -/
theorem claim_c4_counterexample :
    build_records c4Df demoCfg demoCD = some (c4Hid, [c4Bid], [c4Sid], [c4Pur], c4Tot) ∧
    c4Pur.transaction_date = "20250902".toList ∧
    parseDateChain (strip c4RowB.Date) = some (2025, 10, 1) ∧
    parseDateChain (strip c4RowA.Date) = some (2025, 9, 2) ∧
    toordinal 2025 9 2 < toordinal 2025 10 1 ∧
    renderYMD (2025, 10, 1) = "20251001".toList ∧
    c4Pur.transaction_date ≠ "20251001".toList := by
  refine ⟨?_, ?_, ?_, ?_, ?_, ?_, ?_⟩ <;> with_unfolding_all decide

/-! ### Claim C6 -/

theorem length_if_single (c : Prop) [Decidable c] (m : Str) :
    (if c then [m] else []).length = if c then 1 else 0 := by
  split <;> rfl

theorem enum_filter_length (l : List α) (q : Nat × α → Bool) (p : α → Bool)
    (hq : ∀ x : Nat × α, q x = p x.2) :
    (l.enum.filter q).length = (l.filter p).length := by
  have hfun : q = fun x => p x.2 := funext hq
  subst hfun
  conv_rhs => rw [← List.enum_map_snd l]
  rw [List.filter_map, List.length_map]
  rfl

/-- Claim C6 (amended): `validate_output` collects, without short-circuiting,
one error per failing count/sum invariant and one error per brand, ship-to
or purchase record with a wrong encoded-line length — the header and total
records are not length-checked — and the result is valid exactly when the
collected error list is empty. -/
theorem claim_c6_validate_output (bids : List BIDRecord) (sids : List SIDRecord)
    (purs : List PURRecord) (tot : TOTRecord) :
    (validate_output bids sids purs tot).errors.length =
      (if tot.bid_count ≠ (bids.length : Int) then 1 else 0)
      + (if tot.sid_count ≠ (sids.length : Int) then 1 else 0)
      + (if tot.pur_count ≠ (purs.length : Int) then 1 else 0)
      + (if |tot.total_quantity - sumPURQty purs| > 1 / 100 then 1 else 0)
      + (if |tot.total_inventory - sumBIDInv bids| > 1 / 100 then 1 else 0)
      + (bids.filter fun b => decide (b.to_line.length ≠ 261)).length
      + (sids.filter fun s2 => decide (s2.to_line.length ≠ 551)).length
      + (purs.filter fun p => decide (p.to_line.length ≠ 130)).length ∧
    ((validate_output bids sids purs tot).is_valid = true ↔
      (validate_output bids sids purs tot).errors = []) := by
  constructor
  · unfold validate_output
    simp only [List.length_append, length_if_single, List.length_map]
    have hbid : (bids.enum.filter fun ib => decide (ib.2.to_line.length ≠ 261)).length
        = (bids.filter fun b => decide (b.to_line.length ≠ 261)).length :=
      enum_filter_length bids _ _ (fun x => rfl)
    have hsid : (sids.enum.filter fun ib => decide (ib.2.to_line.length ≠ 551)).length
        = (sids.filter fun s2 => decide (s2.to_line.length ≠ 551)).length :=
      enum_filter_length sids _ _ (fun x => rfl)
    have hpur : (purs.enum.filter fun ib => decide (ib.2.to_line.length ≠ 130)).length
        = (purs.filter fun p => decide (p.to_line.length ≠ 130)).length :=
      enum_filter_length purs _ _ (fun x => rfl)
    omega
  · unfold ValidationResult.is_valid
    rw [beq_iff_eq, List.length_eq_zero]

set_option maxRecDepth 8000 in
/-- Counterexample for C6 as stated: a total record whose optional dollars
measure makes its line 142 bytes long (not 140) passes `validate_output`
with no errors, because no header or total line-length check exists. -/
theorem claim_c6_counterexample :
    (validate_output [] [] [] { total_dollars := some ((10 : Rat) ^ 13) }).errors = [] ∧
    ({ total_dollars := some ((10 : Rat) ^ 13) } : TOTRecord).to_line.length = 142 ∧
    ({ total_dollars := some ((10 : Rat) ^ 13) } : TOTRecord).to_line.length ≠ 140 := by
  refine ⟨?_, ?_, ?_⟩ <;> with_unfolding_all decide

/-! ### Claim C9 -/

theorem pyJoin_append_sep (sep : Str) :
    ∀ (x : Str) (xs : List Str),
      pyJoin sep (x :: xs) ++ sep = ((x :: xs).map (· ++ sep)).flatten := by
  intro x xs
  induction xs generalizing x with
  | nil => simp [pyJoin]
  | cons y ys ih =>
    rw [show pyJoin sep (x :: y :: ys) = x ++ sep ++ pyJoin sep (y :: ys) from rfl]
    rw [List.map_cons, List.flatten_cons, ← ih y]
    simp [List.append_assoc]

theorem pyJoin_all {p : Char → Bool} {sep : Str} (hsep : sep.all p = true) :
    ∀ {xs : List Str}, (∀ l ∈ xs, l.all p = true) → (pyJoin sep xs).all p = true := by
  intro xs
  induction xs with
  | nil => intro _; rfl
  | cons x ys ih =>
    intro hall
    cases ys with
    | nil => exact hall x (List.mem_cons_self _ _)
    | cons y zs =>
      rw [show pyJoin sep (x :: y :: zs) = x ++ sep ++ pyJoin sep (y :: zs) from rfl]
      rw [List.all_append, List.all_append]
      rw [hall x (List.mem_cons_self _ _), hsep,
        ih (fun l hl => hall l (List.mem_cons_of_mem _ hl))]
      rfl

/-- Claim C9: the file writer's byte content is the ordered CRLF-terminated
lines (HID, then BIDs, then SIDs, then PURs, then TOT); the in-memory writer
produces byte-identical content whenever it succeeds, and it succeeds
(ASCII-encoding the joined lines) whenever every line is plain ASCII. -/
theorem claim_c9_writer_equivalence (hid : HIDRecord) (bids : List BIDRecord)
    (sids : List SIDRecord) (purs : List PURRecord) (tot : TOTRecord) :
    write_msa hid bids sids purs tot
      = ((msaLines hid bids sids purs tot).map (· ++ CRLF)).flatten ∧
    (∀ out, write_msa_bytes hid bids sids purs tot = some out →
      out = write_msa hid bids sids purs tot) ∧
    ((∀ l ∈ msaLines hid bids sids purs tot, l.all isASCII = true) →
      write_msa_bytes hid bids sids purs tot
        = some (write_msa hid bids sids purs tot)) := by
  have hstruct : write_msa hid bids sids purs tot
      = ((msaLines hid bids sids purs tot).map (· ++ CRLF)).flatten := by
    unfold write_msa msaLines
    simp [List.map_append, List.flatten_append, List.append_assoc, Function.comp_def]
  have hjoin : pyJoin CRLF (msaLines hid bids sids purs tot) ++ CRLF
      = ((msaLines hid bids sids purs tot).map (· ++ CRLF)).flatten := by
    unfold msaLines
    exact pyJoin_append_sep CRLF _ _
  refine ⟨hstruct, ?_, ?_⟩
  · intro out hout
    unfold write_msa_bytes at hout
    split at hout
    · simp only [Option.some_inj] at hout
      subst hout
      rw [hstruct, ← hjoin]
    · exact Option.noConfusion hout
  · intro hascii
    unfold write_msa_bytes
    rw [if_pos (pyJoin_all (by decide) hascii)]
    rw [hstruct, ← hjoin]

set_option maxRecDepth 8000 in
/-- Witness for C9: on the demo records (all ASCII) the two writers produce
the same bytes. -/
theorem claim_c9_witness :
    write_msa_bytes demoHid [demoBid] [demoSid] [demoPur] demoTot
      = some (write_msa demoHid [demoBid] [demoSid] [demoPur] demoTot) :=
  (claim_c9_writer_equivalence demoHid [demoBid] [demoSid] [demoPur] demoTot).2.2
    (by with_unfolding_all decide)
